import Mathlib

/-!
Shallow embedding of the credential negotiation engine of
badboy/git2-commit-rs (`src/utils.rs`: `with_authentication` and `fetch`).

The negotiator is the closure passed to `f` in `with_authentication`
(utils.rs lines 58-149).  Its mutable captures (`attempted`,
`failed_cred_helper`, `username_attempt`, `username_attempts`) form the
negotiation-session state; we model each callback invocation as a pure
function from that state (plus the read-only environment) to a result and
a new state.

External effects (`env::var`, the ssh agent, the credential helper, the
network transport) are modelled as read-only oracles supplied in an `Env`
record; the git2 credential constructors are modelled by the `Cred`
inductive, each constructor tagged with the credential kind it carries.
-/

namespace Git2Commit

/-- The bitflag set `git2::CredentialType` (git2 0.x). The negotiator only
inspects `USER_PASS_PLAINTEXT`, `SSH_KEY`, `DEFAULT` and `USERNAME`; the
remaining flags exist so that "the remote declares only kinds the negotiator
does not know" is expressible. -/
structure CredentialType where
  USER_PASS_PLAINTEXT : Bool := false
  SSH_KEY : Bool := false
  SSH_CUSTOM : Bool := false
  DEFAULT : Bool := false
  SSH_INTERACTIVE : Bool := false
  USERNAME : Bool := false
  SSH_MEMORY : Bool := false
deriving DecidableEq, Repr

/-- Bitwise intersection of two flag sets (`a & b`). -/
def CredentialType.and (a b : CredentialType) : CredentialType :=
  ⟨a.USER_PASS_PLAINTEXT && b.USER_PASS_PLAINTEXT, a.SSH_KEY && b.SSH_KEY,
   a.SSH_CUSTOM && b.SSH_CUSTOM, a.DEFAULT && b.DEFAULT,
   a.SSH_INTERACTIVE && b.SSH_INTERACTIVE, a.USERNAME && b.USERNAME,
   a.SSH_MEMORY && b.SSH_MEMORY⟩

/-- Bitwise union of two flag sets (`a | b`). -/
def CredentialType.or (a b : CredentialType) : CredentialType :=
  ⟨a.USER_PASS_PLAINTEXT || b.USER_PASS_PLAINTEXT, a.SSH_KEY || b.SSH_KEY,
   a.SSH_CUSTOM || b.SSH_CUSTOM, a.DEFAULT || b.DEFAULT,
   a.SSH_INTERACTIVE || b.SSH_INTERACTIVE, a.USERNAME || b.USERNAME,
   a.SSH_MEMORY || b.SSH_MEMORY⟩

/-- Bitwise complement (`!a`). -/
def CredentialType.not (a : CredentialType) : CredentialType :=
  ⟨!a.USER_PASS_PLAINTEXT, !a.SSH_KEY, !a.SSH_CUSTOM, !a.DEFAULT,
   !a.SSH_INTERACTIVE, !a.USERNAME, !a.SSH_MEMORY⟩

/-- bitflags `contains`: `self & other == other`. -/
def CredentialType.contains (a b : CredentialType) : Bool :=
  decide (a.and b = b)

/-- `git2::CredentialType::empty()`. -/
def CredentialType.empty : CredentialType := {}

/-- The constant `git2::USER_PASS_PLAINTEXT`. -/
def USER_PASS_PLAINTEXT : CredentialType := { USER_PASS_PLAINTEXT := true }

/-- The constant `git2::SSH_KEY`. -/
def SSH_KEY : CredentialType := { SSH_KEY := true }

/-- The constant `git2::SSH_CUSTOM`. -/
def SSH_CUSTOM : CredentialType := { SSH_CUSTOM := true }

/-- The constant `git2::DEFAULT`. -/
def DEFAULT : CredentialType := { DEFAULT := true }

/-- The constant `git2::USERNAME`. -/
def USERNAME : CredentialType := { USERNAME := true }

/-- The constant `git2::SSH_MEMORY`. -/
def SSH_MEMORY : CredentialType := { SSH_MEMORY := true }

/-- The four credential kinds the negotiator can base a returned
credential on. -/
inductive CredKind
  | username
  | sshKey
  | userPassPlaintext
  | defaultCred
deriving DecidableEq, Repr

/-- Membership of a single kind in a flag set. -/
def CredentialType.containsKind (a : CredentialType) : CredKind → Bool
  | .username => a.USERNAME
  | .sshKey => a.SSH_KEY
  | .userPassPlaintext => a.USER_PASS_PLAINTEXT
  | .defaultCred => a.DEFAULT

/-- A constructed `git2::Cred` value, tagged with the constructor that
produced it: `Cred::username`, `Cred::ssh_key_from_agent`,
`Cred::userpass_plaintext` (also what `Cred::credential_helper` builds on
success), or `Cred::default`. -/
inductive Cred
  | username (name : String)
  | sshKeyFromAgent (name : String)
  | userpassPlaintext (user pass : String)
  | defaultCred
deriving DecidableEq, Repr

/-- The kind of a constructed credential. -/
def Cred.kind : Cred → CredKind
  | .username _ => .username
  | .sshKeyFromAgent _ => .sshKey
  | .userpassPlaintext _ _ => .userPassPlaintext
  | .defaultCred => .defaultCred

/-- `git2::Error` (only the message is relevant to this core). -/
structure GitError where
  message : String
deriving DecidableEq, Repr

/-- `git2::Error::from_str`. -/
def GitError.from_str (s : String) : GitError := ⟨s⟩

/-- Read-only environment of one negotiation session: process environment
variables, the configured credential-helper username
(`git2::CredentialHelper::new(url).config(cfg)`, utils.rs lines 50-51), and
oracles for the two fallible external lookups. -/
structure Env where
  /-- `env::var("GH_TOKEN")` (utils.rs line 83). -/
  GH_TOKEN : Option String
  /-- `env::var("USER").or_else(|_| env::var("USERNAME")).ok()`
  (utils.rs line 113). -/
  USER : Option String
  /-- `cred_helper.username` (utils.rs line 109). -/
  cred_helper_username : Option String
  /-- Outcome of `git2::Cred::ssh_key_from_agent(&name)` for a given
  username: `ok` if the agent resolves an identity for it. -/
  agent : String → Except GitError Unit
  /-- Outcome of `git2::Cred::credential_helper(cfg, url, username)`:
  on success a plaintext user/password pair. -/
  helper : String → Option String → Except GitError (String × String)

/-- `git2::Cred::ssh_key_from_agent(&name)` (utils.rs line 121): the
credential it builds on success is of SSH-key kind. -/
def sshKeyFromAgent (env : Env) (name : String) : Except GitError Cred :=
  match env.agent name with
  | .ok _ => .ok (.sshKeyFromAgent name)
  | .error e => .error e

/-- `git2::Cred::credential_helper(cfg, url, username)` (utils.rs line
135): the credential it builds on success is a plaintext user/password
pair. -/
def credentialHelper (env : Env) (url : String) (username : Option String) :
    Except GitError Cred :=
  match env.helper url username with
  | .ok up => .ok (.userpassPlaintext up.1 up.2)
  | .error e => .error e

/-- The `UsernameAttempt` enum of `with_authentication`
(utils.rs lines 43-48). -/
inductive UsernameAttempt
  | Arg
  | CredHelper
  | Local
  | Git
deriving DecidableEq, Repr

/-- Position of a username source in the fixed priority order. -/
def UsernameAttempt.rank : UsernameAttempt → Nat
  | .Arg => 0
  | .CredHelper => 1
  | .Local => 2
  | .Git => 3

/-- The cursor position after a given source has been consumed (the loop
advances the cursor before examining the source; `Git` is never
re-advanced). -/
def UsernameAttempt.next : UsernameAttempt → UsernameAttempt
  | .Arg => .CredHelper
  | .CredHelper => .Local
  | .Local => .Git
  | .Git => .Git

/-- The mutable captures of the authentication callback
(utils.rs lines 53-56). -/
structure AuthState where
  attempted : CredentialType
  failed_cred_helper : Bool
  username_attempt : UsernameAttempt
  username_attempts : List String
deriving DecidableEq, Repr

/-- The fresh session state built by `with_authentication` before the
first callback invocation (utils.rs lines 53-56). -/
def initState : AuthState :=
  { attempted := CredentialType.empty
    failed_cred_helper := false
    username_attempt := UsernameAttempt.Arg
    username_attempts := [] }

/-- Outcome of one pass through the SSH username loop
(utils.rs lines 101-125): the returned credential or error, and the new
values of the three pieces of state the loop touches. -/
structure SshResult where
  ret : Except GitError Cred
  username_attempt : UsernameAttempt
  attempted : CredentialType
  username_attempts : List String
deriving Repr

/-- `UsernameAttempt::Git` arm of the loop (utils.rs lines 115-118): mark
`SSH_KEY` attempted; the name is always `Some("git")`, so the loop exits
here; the cursor stays at `Git`. -/
def sshLoopGit (env : Env) (attempted : CredentialType) (log : List String) :
    SshResult :=
  { ret := sshKeyFromAgent env "git"
    username_attempt := .Git
    attempted := attempted.or SSH_KEY
    username_attempts := log ++ ["git"] }

/-- `UsernameAttempt::Local` arm (utils.rs lines 111-114): advance the
cursor to `Git`; the candidate name is the OS account name; if absent the
loop continues with the `Git` arm. -/
def sshLoopLocal (env : Env) (attempted : CredentialType) (log : List String) :
    SshResult :=
  match env.USER with
  | some name =>
    { ret := sshKeyFromAgent env name
      username_attempt := .Git
      attempted := attempted
      username_attempts := log ++ [name] }
  | none => sshLoopGit env attempted log

/-- `UsernameAttempt::CredHelper` arm (utils.rs lines 107-110): advance
the cursor to `Local`; the candidate name is the credential-helper
configured username; if absent the loop continues with the `Local` arm. -/
def sshLoopCredHelper (env : Env) (attempted : CredentialType)
    (log : List String) : SshResult :=
  match env.cred_helper_username with
  | some name =>
    { ret := sshKeyFromAgent env name
      username_attempt := .Local
      attempted := attempted
      username_attempts := log ++ [name] }
  | none => sshLoopLocal env attempted log

/-- `UsernameAttempt::Arg` arm (utils.rs lines 103-106): advance the
cursor to `CredHelper`; the candidate name is the `username` argument of
the invocation; if absent the loop continues with the `CredHelper` arm. -/
def sshLoopArg (env : Env) (username : Option String)
    (attempted : CredentialType) (log : List String) : SshResult :=
  match username with
  | some name =>
    { ret := sshKeyFromAgent env name
      username_attempt := .CredHelper
      attempted := attempted
      username_attempts := log ++ [name] }
  | none => sshLoopCredHelper env attempted log

/-- The `loop` of utils.rs lines 101-125, entered at the current cursor
position. Each iteration advances the cursor and examines one source;
`if let Some(name)` calls the agent, appends the name to
`username_attempts` and returns. Compiled into one definition per loop
entry state; termination is manifest because the `Git` arm always
yields a name. -/
def sshLoop (env : Env) (username : Option String) :
    UsernameAttempt → CredentialType → List String → SshResult
  | .Arg, attempted, log => sshLoopArg env username attempted log
  | .CredHelper, attempted, log => sshLoopCredHelper env attempted log
  | .Local, attempted, log => sshLoopLocal env attempted log
  | .Git, attempted, log => sshLoopGit env attempted log

/-- Tail of the callback after the `USERNAME` and token blocks
(utils.rs lines 100-148): the SSH branch, the credential-helper branch,
the `DEFAULT` branch and the final error. `allowed` is the set computed
once at line 59 (it is not recomputed after the token block mutates
`attempted`). -/
def credCbTail (env : Env) (s : AuthState) (url : String)
    (username : Option String) (allowed : CredentialType) :
    Except GitError Cred × AuthState :=
  if allowed.contains SSH_KEY then
    let r := sshLoop env username s.username_attempt s.attempted
      s.username_attempts
    (r.ret,
     { s with
        attempted := r.attempted
        username_attempt := r.username_attempt
        username_attempts := r.username_attempts })
  else if allowed.contains USER_PASS_PLAINTEXT then
    let r := credentialHelper env url username
    (r,
     { s with
        attempted := s.attempted.or USER_PASS_PLAINTEXT
        failed_cred_helper := match r with | .ok _ => false | .error _ => true })
  else if allowed.contains DEFAULT then
    (.ok .defaultCred, { s with attempted := s.attempted.or DEFAULT })
  else
    (.error (GitError.from_str "no authentication available"), s)

/-- One invocation of the authentication callback
(utils.rs lines 58-148). `allowedArg` is the `allowed` parameter supplied
by libgit2; line 59 intersects it with the complement of `attempted`.
The `USER_PASS_PLAINTEXT` block at lines 81-86 marks the kind attempted
and returns a token credential only when `GH_TOKEN` is set, otherwise it
falls through with `attempted` already updated. -/
def credCb (env : Env) (s : AuthState) (url : String)
    (username : Option String) (allowedArg : CredentialType) :
    Except GitError Cred × AuthState :=
  let allowed := allowedArg.and s.attempted.not
  if allowed.contains USERNAME then
    (.ok (.username (username.getD "git")),
     { s with attempted := s.attempted.or USERNAME })
  else if allowed.contains USER_PASS_PLAINTEXT then
    let s1 := { s with attempted := s.attempted.or USER_PASS_PLAINTEXT }
    match env.GH_TOKEN with
    | some token => (.ok (.userpassPlaintext token ""), s1)
    | none => credCbTail env s1 url username allowed
  else
    credCbTail env s url username allowed

/-- One transport query to the callback: the arguments libgit2 passes. -/
structure Query where
  url : String
  username : Option String
  allowed : CredentialType
deriving Repr

/-- One invocation of the callback on a query. -/
def credCbQ (env : Env) (s : AuthState) (q : Query) :
    Except GitError Cred × AuthState :=
  credCb env s q.url q.username q.allowed

/-- A negotiation session: the callback is invoked sequentially on the
queries the transport presents, threading the session state. Returns the
list of per-invocation results and the final state. -/
def runTrace (env : Env) (s : AuthState) :
    List Query → List (Except GitError Cred) × AuthState
  | [] => ([], s)
  | q :: qs =>
    let r := credCbQ env s q
    let rest := runTrace env r.2 qs
    (r.1 :: rest.1, rest.2)

/-- `with_authentication` (utils.rs lines 36-150): build fresh session
state and run the callback against the transport's queries. -/
def with_authentication (env : Env) (queries : List Query) :
    List (Except GitError Cred) × AuthState :=
  runTrace env initState queries

/-- The value a username source yields: the invocation's `username`
argument, the credential-helper username, the OS account name, or the
literal fallback `"git"`. -/
def sourceValue (env : Env) (username : Option String) :
    UsernameAttempt → Option String
  | .Arg => username
  | .CredHelper => env.cred_helper_username
  | .Local => env.USER
  | .Git => some "git"

/-- The username sources from a cursor position onwards, in the fixed
priority order. -/
def sourceList : UsernameAttempt → List UsernameAttempt
  | .Arg => [.Arg, .CredHelper, .Local, .Git]
  | .CredHelper => [.CredHelper, .Local, .Git]
  | .Local => [.Local, .Git]
  | .Git => [.Git]

/-- The first source at or after the cursor that yields a name, and that
name. Since the `Git` source always yields `"git"`, a yielding source
always exists; the fallback arm is unreachable. -/
def firstYield (env : Env) (username : Option String)
    (cur : UsernameAttempt) : UsernameAttempt × String :=
  match (sourceList cur).find?
      (fun a => (sourceValue env username a).isSome) with
  | some a => (a, (sourceValue env username a).getD "git")
  | none => (.Git, "git")

/-- The per-session bound on the attempt log: its length never exceeds the
cursor rank, plus one once `SSH_KEY` has been marked attempted. -/
def sessionLenInv (s : AuthState) : Prop :=
  s.username_attempts.length
    ≤ s.username_attempt.rank + (if s.attempted.SSH_KEY = true then 1 else 0)

/-- 1 if the result is a returned credential of kind `k`, else 0. -/
def retCount (k : CredKind) : Except GitError Cred → Nat
  | .ok c => if c.kind = k then 1 else 0
  | .error _ => 0

/-- Number of returned credentials of kind `k` in a list of callback
results. -/
def okKindCount (k : CredKind) (rs : List (Except GitError Cred)) : Nat :=
  (rs.map (retCount k)).sum

/-- How many more credentials of kind `k` the negotiator can still return
from a given state: one per unattempted non-SSH kind, and one per
remaining username source (plus the final one) for SSH. -/
def kindBudget (k : CredKind) (s : AuthState) : Nat :=
  match k with
  | .username => if s.attempted.USERNAME = true then 0 else 1
  | .userPassPlaintext =>
    if s.attempted.USER_PASS_PLAINTEXT = true then 0 else 1
  | .defaultCred => if s.attempted.DEFAULT = true then 0 else 1
  | .sshKey =>
    (3 - s.username_attempt.rank)
      + (if s.attempted.SSH_KEY = true then 0 else 1)

/-- `git2::AutotagOption`. -/
inductive AutotagOption
  | Unspecified
  | Auto
  | None
  | All
deriving DecidableEq, Repr

/-- The arguments `fetch` hands the transport primitive `remote.fetch`
(utils.rs lines 156-160): the URL the anonymous remote was opened on, the
refspec list, and the tag-download policy. -/
structure FetchRequest where
  url : String
  refspecs : List String
  download_tags : AutotagOption

/-- The network transport behind `remote.fetch`, as an oracle: given the
request it decides which queries to put to the credentials callback, and
computes the overall transfer outcome from the request and the callback's
answers. -/
structure Transport where
  queries : FetchRequest → List Query
  outcome : FetchRequest →
    List (Except GitError Cred) → Except GitError Unit

/-- The repository handle as seen by `fetch`: `repo.config()` (its
credential-relevant content is folded into `Env`) and
`repo.remote_anonymous(url)`, each of which can fail. -/
structure Repository where
  config : Except GitError Unit
  remote_anonymous : String → Except GitError Unit

/-- `fetch` (utils.rs lines 152-163): read the configuration, open an
anonymous remote bound to `url`, build fresh negotiation-session state,
install the negotiator as the credentials callback, request download of
all tags, and run the transfer for exactly the given refspec, propagating
any failure. -/
def fetch (env : Env) (tr : Transport) (repo : Repository)
    (url : String) (refspec : String) : Except GitError Unit :=
  match repo.config with
  | .error e => .error e
  | .ok _ =>
    match repo.remote_anonymous url with
    | .error e => .error e
    | .ok _ =>
      tr.outcome
        { url := url, refspecs := [refspec],
          download_tags := AutotagOption.All }
        (with_authentication env (tr.queries
          { url := url, refspecs := [refspec],
            download_tags := AutotagOption.All })).1

/-- A concrete environment used in witnesses: no token, no configured
usernames, agent and helper both failing. -/
def envBare : Env :=
  { GH_TOKEN := none
    USER := none
    cred_helper_username := none
    agent := fun _ => .error (GitError.from_str "agent unavailable")
    helper := fun _ _ => .error (GitError.from_str "helper failed") }

/-- `envBare` with the `GH_TOKEN` environment variable set to `"T"`. -/
def envToken : Env := { envBare with GH_TOKEN := some "T" }

/-- `envBare` with a credential helper that succeeds. -/
def envHelperOk : Env :=
  { envBare with helper := fun _ _ => .ok ("helperuser", "helperpass") }

/-- A transport that asks no credential queries and succeeds. -/
def transportNull : Transport :=
  { queries := fun _ => []
    outcome := fun _ _ => .ok () }

/-- A repository handle whose configuration and remote lookups succeed. -/
def repoOk : Repository :=
  { config := .ok ()
    remote_anonymous := fun _ => .ok () }

/-! ### Basic lemmas about flag sets -/

theorem contains_USERNAME_eq (a : CredentialType) :
    a.contains USERNAME = a.USERNAME := by
  rcases a with ⟨a1, a2, a3, a4, a5, a6, a7⟩
  cases a1 <;> cases a2 <;> cases a3 <;> cases a4 <;> cases a5 <;> cases a6
    <;> cases a7 <;> rfl

theorem contains_SSH_KEY_eq (a : CredentialType) :
    a.contains SSH_KEY = a.SSH_KEY := by
  rcases a with ⟨a1, a2, a3, a4, a5, a6, a7⟩
  cases a1 <;> cases a2 <;> cases a3 <;> cases a4 <;> cases a5 <;> cases a6
    <;> cases a7 <;> rfl

theorem contains_USER_PASS_PLAINTEXT_eq (a : CredentialType) :
    a.contains USER_PASS_PLAINTEXT = a.USER_PASS_PLAINTEXT := by
  rcases a with ⟨a1, a2, a3, a4, a5, a6, a7⟩
  cases a1 <;> cases a2 <;> cases a3 <;> cases a4 <;> cases a5 <;> cases a6
    <;> cases a7 <;> rfl

theorem contains_DEFAULT_eq (a : CredentialType) :
    a.contains DEFAULT = a.DEFAULT := by
  rcases a with ⟨a1, a2, a3, a4, a5, a6, a7⟩
  cases a1 <;> cases a2 <;> cases a3 <;> cases a4 <;> cases a5 <;> cases a6
    <;> cases a7 <;> rfl

theorem and_not_proj_USERNAME (a b : CredentialType) :
    (a.and b.not).USERNAME = (a.USERNAME && !b.USERNAME) := rfl

theorem and_not_proj_SSH_KEY (a b : CredentialType) :
    (a.and b.not).SSH_KEY = (a.SSH_KEY && !b.SSH_KEY) := rfl

theorem and_not_proj_USER_PASS_PLAINTEXT (a b : CredentialType) :
    (a.and b.not).USER_PASS_PLAINTEXT
      = (a.USER_PASS_PLAINTEXT && !b.USER_PASS_PLAINTEXT) := rfl

theorem and_not_proj_DEFAULT (a b : CredentialType) :
    (a.and b.not).DEFAULT = (a.DEFAULT && !b.DEFAULT) := rfl

theorem sshKeyFromAgent_ok_eq (env : Env) (name : String) (c : Cred)
    (h : sshKeyFromAgent env name = .ok c) : c = .sshKeyFromAgent name := by
  unfold sshKeyFromAgent at h
  cases ha : env.agent name <;> rw [ha] at h <;> simp_all

theorem credentialHelper_ok_kind (env : Env) (url : String)
    (username : Option String) (c : Cred)
    (h : credentialHelper env url username = .ok c) :
    c.kind = .userPassPlaintext := by
  unfold credentialHelper at h
  cases ha : env.helper url username <;> rw [ha] at h <;> simp_all
  subst h
  rfl

theorem sshLoopGit_ret_ok (env : Env) (a : CredentialType) (l : List String)
    (c : Cred) (h : (sshLoopGit env a l).ret = .ok c) : c.kind = .sshKey := by
  simp only [sshLoopGit] at h
  rw [sshKeyFromAgent_ok_eq env "git" c h]
  rfl

theorem sshLoopLocal_ret_ok (env : Env) (a : CredentialType) (l : List String)
    (c : Cred) (h : (sshLoopLocal env a l).ret = .ok c) : c.kind = .sshKey := by
  cases hU : env.USER with
  | none =>
    simp only [sshLoopLocal, hU] at h
    exact sshLoopGit_ret_ok env a l c h
  | some name =>
    simp only [sshLoopLocal, hU] at h
    rw [sshKeyFromAgent_ok_eq env name c h]
    rfl

theorem sshLoopCredHelper_ret_ok (env : Env) (a : CredentialType)
    (l : List String) (c : Cred)
    (h : (sshLoopCredHelper env a l).ret = .ok c) : c.kind = .sshKey := by
  cases hU : env.cred_helper_username with
  | none =>
    simp only [sshLoopCredHelper, hU] at h
    exact sshLoopLocal_ret_ok env a l c h
  | some name =>
    simp only [sshLoopCredHelper, hU] at h
    rw [sshKeyFromAgent_ok_eq env name c h]
    rfl

theorem sshLoopArg_ret_ok (env : Env) (username : Option String)
    (a : CredentialType) (l : List String) (c : Cred)
    (h : (sshLoopArg env username a l).ret = .ok c) : c.kind = .sshKey := by
  cases hU : username with
  | none =>
    simp only [sshLoopArg, hU] at h
    exact sshLoopCredHelper_ret_ok env a l c h
  | some name =>
    simp only [sshLoopArg, hU] at h
    rw [sshKeyFromAgent_ok_eq env name c h]
    rfl

theorem sshLoop_ret_ok (env : Env) (username : Option String)
    (cur : UsernameAttempt) (a : CredentialType) (l : List String) (c : Cred)
    (h : (sshLoop env username cur a l).ret = .ok c) : c.kind = .sshKey := by
  cases cur
  · exact sshLoopArg_ret_ok env username a l c h
  · exact sshLoopCredHelper_ret_ok env a l c h
  · exact sshLoopLocal_ret_ok env a l c h
  · exact sshLoopGit_ret_ok env a l c h

theorem credCbTail_ok_kind (env : Env) (t : AuthState) (url : String)
    (username : Option String) (allowed : CredentialType) (c : Cred)
    (h : (credCbTail env t url username allowed).1 = .ok c) :
    (allowed.SSH_KEY = true ∧ c.kind = .sshKey)
    ∨ (allowed.USER_PASS_PLAINTEXT = true ∧ c.kind = .userPassPlaintext)
    ∨ (allowed.DEFAULT = true ∧ c.kind = .defaultCred) := by
  cases hS : allowed.contains SSH_KEY with
  | true =>
    simp only [credCbTail, hS, if_true] at h
    left
    refine ⟨by rwa [contains_SSH_KEY_eq] at hS, ?_⟩
    exact sshLoop_ret_ok env username t.username_attempt t.attempted
      t.username_attempts c h
  | false =>
    cases hP : allowed.contains USER_PASS_PLAINTEXT with
    | true =>
      simp only [credCbTail, hS, hP, Bool.false_eq_true, if_false, if_true] at h
      right; left
      exact ⟨by rwa [contains_USER_PASS_PLAINTEXT_eq] at hP,
        credentialHelper_ok_kind env url username c h⟩
    | false =>
      cases hD : allowed.contains DEFAULT with
      | true =>
        simp only [credCbTail, hS, hP, hD, Bool.false_eq_true, if_false,
          if_true] at h
        right; right
        refine ⟨by rwa [contains_DEFAULT_eq] at hD, ?_⟩
        cases h
        rfl
      | false =>
        simp only [credCbTail, hS, hP, hD, Bool.false_eq_true, if_false] at h
        cases h

/-- C1: within one negotiation session, the callback never returns a
credential whose kind was already in the attempted set at the start of
that invocation. -/
theorem credCb_no_attempted_kind (env : Env) (s : AuthState) (url : String)
    (username : Option String) (allowedArg : CredentialType) (c : Cred)
    (h : (credCb env s url username allowedArg).1 = .ok c) :
    s.attempted.containsKind c.kind = false := by
  have hTail : ∀ t : AuthState,
      (credCbTail env t url username (allowedArg.and s.attempted.not)).1
        = .ok c →
      s.attempted.containsKind c.kind = false := by
    intro t ht
    rcases credCbTail_ok_kind env t url username _ c ht with
      ⟨ha, hk⟩ | ⟨ha, hk⟩ | ⟨ha, hk⟩
    · rw [and_not_proj_SSH_KEY] at ha
      simp only [Bool.and_eq_true, Bool.not_eq_true'] at ha
      simp [CredentialType.containsKind, hk, ha.2]
    · rw [and_not_proj_USER_PASS_PLAINTEXT] at ha
      simp only [Bool.and_eq_true, Bool.not_eq_true'] at ha
      simp [CredentialType.containsKind, hk, ha.2]
    · rw [and_not_proj_DEFAULT] at ha
      simp only [Bool.and_eq_true, Bool.not_eq_true'] at ha
      simp [CredentialType.containsKind, hk, ha.2]
  cases hN : (allowedArg.and s.attempted.not).contains USERNAME with
  | true =>
    simp only [credCb, hN, if_true] at h
    cases h
    rw [contains_USERNAME_eq, and_not_proj_USERNAME] at hN
    simp only [Bool.and_eq_true, Bool.not_eq_true'] at hN
    simp [CredentialType.containsKind, Cred.kind, hN.2]
  | false =>
    cases hP : (allowedArg.and s.attempted.not).contains USER_PASS_PLAINTEXT with
    | true =>
      cases hT : env.GH_TOKEN with
      | some token =>
        simp only [credCb, hN, hP, hT, Bool.false_eq_true, if_false,
          if_true] at h
        cases h
        rw [contains_USER_PASS_PLAINTEXT_eq,
          and_not_proj_USER_PASS_PLAINTEXT] at hP
        simp only [Bool.and_eq_true, Bool.not_eq_true'] at hP
        simp [CredentialType.containsKind, Cred.kind, hP.2]
      | none =>
        simp only [credCb, hN, hP, hT, Bool.false_eq_true, if_false,
          if_true] at h
        exact hTail _ h
    | false =>
      simp only [credCb, hN, hP, Bool.false_eq_true, if_false] at h
      exact hTail _ h

/-! ### Closed form of the SSH username loop -/

theorem sshLoop_closed_form (env : Env) (username : Option String)
    (cur : UsernameAttempt) (attempted : CredentialType) (log : List String) :
    sshLoop env username cur attempted log =
      { ret := sshKeyFromAgent env (firstYield env username cur).2
        username_attempt := (firstYield env username cur).1.next
        attempted :=
          if (firstYield env username cur).1 = UsernameAttempt.Git
          then attempted.or SSH_KEY else attempted
        username_attempts := log ++ [(firstYield env username cur).2] } := by
  cases cur <;> cases hA : username <;> cases hB : env.cred_helper_username
    <;> cases hC : env.USER <;>
    simp [sshLoop, sshLoopArg, sshLoopCredHelper, sshLoopLocal, sshLoopGit,
      firstYield, sourceList, sourceValue, List.find?, hA, hB, hC,
      UsernameAttempt.next]

theorem sshLoop_log_append (env : Env) (username : Option String)
    (cur : UsernameAttempt) (attempted : CredentialType) (log : List String) :
    (sshLoop env username cur attempted log).username_attempts
      = log ++ [(firstYield env username cur).2] := by
  rw [sshLoop_closed_form]

theorem sshLoop_attempted_cases (env : Env) (username : Option String)
    (cur : UsernameAttempt) (attempted : CredentialType) (log : List String) :
    (sshLoop env username cur attempted log).attempted = attempted
    ∨ (sshLoop env username cur attempted log).attempted
        = attempted.or SSH_KEY := by
  rw [sshLoop_closed_form]
  by_cases h : (firstYield env username cur).1 = UsernameAttempt.Git <;>
    simp [h]

theorem sshLoop_rank_ge (env : Env) (username : Option String)
    (cur : UsernameAttempt) (attempted : CredentialType) (log : List String) :
    cur.rank ≤ ((sshLoop env username cur attempted log).username_attempt).rank := by
  cases cur <;> cases hA : username <;> cases hB : env.cred_helper_username
    <;> cases hC : env.USER <;>
    simp [sshLoop, sshLoopArg, sshLoopCredHelper, sshLoopLocal, sshLoopGit,
      hA, hB, hC, UsernameAttempt.rank]

theorem sshLoop_cursor_flag (env : Env) (username : Option String)
    (cur : UsernameAttempt) (attempted : CredentialType) (log : List String)
    (ha : attempted.SSH_KEY = false) :
    (3 - ((sshLoop env username cur attempted log).username_attempt).rank)
      + (if (sshLoop env username cur attempted log).attempted.SSH_KEY = true
          then 0 else 1)
    ≤ 3 - cur.rank := by
  cases cur <;> cases hA : username <;> cases hB : env.cred_helper_username
    <;> cases hC : env.USER <;>
    simp [sshLoop, sshLoopArg, sshLoopCredHelper, sshLoopLocal, sshLoopGit,
      hA, hB, hC, UsernameAttempt.rank, CredentialType.or, SSH_KEY, ha]

theorem sshLoop_other_flags (env : Env) (username : Option String)
    (cur : UsernameAttempt) (attempted : CredentialType) (log : List String) :
    (sshLoop env username cur attempted log).attempted.USERNAME
        = attempted.USERNAME
    ∧ (sshLoop env username cur attempted log).attempted.USER_PASS_PLAINTEXT
        = attempted.USER_PASS_PLAINTEXT
    ∧ (sshLoop env username cur attempted log).attempted.DEFAULT
        = attempted.DEFAULT := by
  rcases sshLoop_attempted_cases env username cur attempted log with h | h <;>
    rw [h] <;> simp [CredentialType.or, SSH_KEY]

/-! ### State-shape analysis of one callback invocation -/

theorem or_empty_right (a : CredentialType) :
    a.or CredentialType.empty = a := by
  rcases a with ⟨a1, a2, a3, a4, a5, a6, a7⟩
  simp [CredentialType.or, CredentialType.empty]

theorem or_assoc3 (a b c : CredentialType) :
    (a.or b).or c = a.or (b.or c) := by
  rcases a with ⟨a1, a2, a3, a4, a5, a6, a7⟩
  rcases b with ⟨b1, b2, b3, b4, b5, b6, b7⟩
  rcases c with ⟨c1, c2, c3, c4, c5, c6, c7⟩
  simp [CredentialType.or, Bool.or_assoc]

/-- Shape of the state after the tail of an invocation: either the SSH
loop ran on the entry state, or the cursor and the attempt log are
unchanged and `attempted` only grew. -/
theorem credCbTail_state_cases (env : Env) (t : AuthState) (url : String)
    (username : Option String) (allowed : CredentialType) :
    (allowed.contains SSH_KEY = true ∧
      (credCbTail env t url username allowed).2 =
        { attempted := (sshLoop env username t.username_attempt t.attempted
            t.username_attempts).attempted
          failed_cred_helper := t.failed_cred_helper
          username_attempt := (sshLoop env username t.username_attempt
            t.attempted t.username_attempts).username_attempt
          username_attempts := (sshLoop env username t.username_attempt
            t.attempted t.username_attempts).username_attempts })
    ∨ (∃ extra : CredentialType, ∃ d : Bool,
        (credCbTail env t url username allowed).2 =
          { attempted := t.attempted.or extra
            failed_cred_helper := d
            username_attempt := t.username_attempt
            username_attempts := t.username_attempts }) := by
  cases hS : allowed.contains SSH_KEY with
  | true =>
    left
    exact ⟨rfl, by simp only [credCbTail, hS, if_true]⟩
  | false =>
    right
    cases hP : allowed.contains USER_PASS_PLAINTEXT with
    | true =>
      cases hr : credentialHelper env url username with
      | ok c =>
        exact ⟨USER_PASS_PLAINTEXT, false, by
          simp only [credCbTail, hS, hP, hr, Bool.false_eq_true, if_false,
            if_true]⟩
      | error e =>
        exact ⟨USER_PASS_PLAINTEXT, true, by
          simp only [credCbTail, hS, hP, hr, Bool.false_eq_true, if_false,
            if_true]⟩
    | false =>
      cases hD : allowed.contains DEFAULT with
      | true =>
        exact ⟨DEFAULT, t.failed_cred_helper, by
          simp only [credCbTail, hS, hP, hD, Bool.false_eq_true, if_false,
            if_true]⟩
      | false =>
        refine ⟨CredentialType.empty, t.failed_cred_helper, ?_⟩
        simp only [credCbTail, hS, hP, hD, Bool.false_eq_true, if_false]
        rw [or_empty_right]

/-- Shape of the state after one full invocation: either the SSH loop ran
(on the original `attempted` set, or on it with `USER_PASS_PLAINTEXT`
added by the fall-through of the token block), or the cursor and log are
unchanged and `attempted` only grew. -/
theorem credCb_state_cases (env : Env) (s : AuthState) (url : String)
    (username : Option String) (allowedArg : CredentialType) :
    (∃ base : CredentialType,
      (base = s.attempted ∨ base = s.attempted.or USER_PASS_PLAINTEXT) ∧
      s.attempted.SSH_KEY = false ∧
      (credCb env s url username allowedArg).2 =
        { attempted := (sshLoop env username s.username_attempt base
            s.username_attempts).attempted
          failed_cred_helper := s.failed_cred_helper
          username_attempt := (sshLoop env username s.username_attempt base
            s.username_attempts).username_attempt
          username_attempts := (sshLoop env username s.username_attempt base
            s.username_attempts).username_attempts })
    ∨ (∃ extra : CredentialType, ∃ d : Bool,
        (credCb env s url username allowedArg).2 =
          { attempted := s.attempted.or extra
            failed_cred_helper := d
            username_attempt := s.username_attempt
            username_attempts := s.username_attempts }) := by
  cases hN : (allowedArg.and s.attempted.not).contains USERNAME with
  | true =>
    right
    exact ⟨USERNAME, s.failed_cred_helper, by simp only [credCb, hN, if_true]⟩
  | false =>
    cases hP : (allowedArg.and s.attempted.not).contains USER_PASS_PLAINTEXT with
    | true =>
      cases hT : env.GH_TOKEN with
      | some token =>
        right
        exact ⟨USER_PASS_PLAINTEXT, s.failed_cred_helper, by
          simp only [credCb, hN, hP, hT, Bool.false_eq_true, if_false,
            if_true]⟩
      | none =>
        have heq : (credCb env s url username allowedArg).2
            = (credCbTail env
                { s with attempted := s.attempted.or USER_PASS_PLAINTEXT }
                url username (allowedArg.and s.attempted.not)).2 := by
          simp only [credCb, hN, hP, hT, Bool.false_eq_true, if_false, if_true]
        rcases credCbTail_state_cases env
            { s with attempted := s.attempted.or USER_PASS_PLAINTEXT }
            url username (allowedArg.and s.attempted.not) with
          ⟨hS, hstate⟩ | ⟨extra, d, hstate⟩
        · left
          refine ⟨s.attempted.or USER_PASS_PLAINTEXT, Or.inr rfl, ?_, ?_⟩
          · rw [contains_SSH_KEY_eq, and_not_proj_SSH_KEY] at hS
            simp only [Bool.and_eq_true, Bool.not_eq_true'] at hS
            exact hS.2
          · rw [heq, hstate]
        · right
          refine ⟨USER_PASS_PLAINTEXT.or extra, d, ?_⟩
          rw [heq, hstate]
          simp only [or_assoc3]
    | false =>
      have heq : (credCb env s url username allowedArg).2
          = (credCbTail env s url username
              (allowedArg.and s.attempted.not)).2 := by
        simp only [credCb, hN, hP, Bool.false_eq_true, if_false]
      rcases credCbTail_state_cases env s url username
          (allowedArg.and s.attempted.not) with
        ⟨hS, hstate⟩ | ⟨extra, d, hstate⟩
      · left
        refine ⟨s.attempted, Or.inl rfl, ?_, ?_⟩
        · rw [contains_SSH_KEY_eq, and_not_proj_SSH_KEY] at hS
          simp only [Bool.and_eq_true, Bool.not_eq_true'] at hS
          exact hS.2
        · rw [heq, hstate]
      · right
        exact ⟨extra, d, by rw [heq, hstate]⟩

/-! ### Session invariants: monotone attempted set, cursor, log length -/

theorem containsKind_or (a b : CredentialType) (k : CredKind) :
    (a.or b).containsKind k = (a.containsKind k || b.containsKind k) := by
  cases k <;> rfl

theorem credCb_attempted_monotone (env : Env) (s : AuthState) (url : String)
    (username : Option String) (allowedArg : CredentialType) (k : CredKind)
    (h : s.attempted.containsKind k = true) :
    ((credCb env s url username allowedArg).2).attempted.containsKind k
      = true := by
  rcases credCb_state_cases env s url username allowedArg with
    ⟨base, hbase, hssh, hstate⟩ | ⟨extra, d, hstate⟩
  · rw [hstate]
    have hb : base.containsKind k = true := by
      rcases hbase with hb | hb <;> rw [hb]
      · exact h
      · rw [containsKind_or, h]
        rfl
    rcases sshLoop_attempted_cases env username s.username_attempt base
        s.username_attempts with h2 | h2
    · show (sshLoop env username s.username_attempt base
        s.username_attempts).attempted.containsKind k = true
      rw [h2]
      exact hb
    · show (sshLoop env username s.username_attempt base
        s.username_attempts).attempted.containsKind k = true
      rw [h2, containsKind_or, hb]
      rfl
  · rw [hstate]
    show (s.attempted.or extra).containsKind k = true
    rw [containsKind_or, h]
    rfl

theorem runTrace_attempted_monotone (env : Env) (qs : List Query) :
    ∀ s k, s.attempted.containsKind k = true →
      ((runTrace env s qs).2).attempted.containsKind k = true := by
  induction qs with
  | nil => intro s k h; exact h
  | cons q qs ih =>
    intro s k h
    simp only [runTrace]
    exact ih _ _ (credCb_attempted_monotone env s q.url q.username q.allowed k h)

theorem credCb_rank_monotone (env : Env) (s : AuthState) (url : String)
    (username : Option String) (allowedArg : CredentialType) :
    s.username_attempt.rank
      ≤ ((credCb env s url username allowedArg).2).username_attempt.rank := by
  rcases credCb_state_cases env s url username allowedArg with
    ⟨base, hbase, hssh, hstate⟩ | ⟨extra, d, hstate⟩
  · rw [hstate]
    exact sshLoop_rank_ge env username s.username_attempt base
      s.username_attempts
  · rw [hstate]

theorem rank_le_three (c : UsernameAttempt) : c.rank ≤ 3 := by
  cases c <;> simp [UsernameAttempt.rank]

theorem credCb_len_inv (env : Env) (s : AuthState) (url : String)
    (username : Option String) (allowedArg : CredentialType)
    (h : sessionLenInv s) :
    sessionLenInv ((credCb env s url username allowedArg).2) := by
  unfold sessionLenInv at h ⊢
  rcases credCb_state_cases env s url username allowedArg with
    ⟨base, hbase, hssh, hstate⟩ | ⟨extra, d, hstate⟩
  · rw [hstate]
    have hbssh : base.SSH_KEY = false := by
      rcases hbase with hb | hb <;> rw [hb]
      · exact hssh
      · simp [CredentialType.or, USER_PASS_PLAINTEXT, hssh]
    have hcf := sshLoop_cursor_flag env username s.username_attempt base
      s.username_attempts hbssh
    have hlog := sshLoop_log_append env username s.username_attempt base
      s.username_attempts
    have hr3 := rank_le_three
      ((sshLoop env username s.username_attempt base
        s.username_attempts).username_attempt)
    have hr3s := rank_le_three s.username_attempt
    rw [hssh] at h
    simp only [hlog, List.length_append, List.length_cons,
      List.length_nil] at *
    by_cases hf : (sshLoop env username s.username_attempt base
        s.username_attempts).attempted.SSH_KEY = true <;>
      simp only [hf, if_true, if_false, Bool.false_eq_true] at * <;> omega
  · rw [hstate]
    show s.username_attempts.length ≤ s.username_attempt.rank
      + (if (s.attempted.or extra).SSH_KEY = true then 1 else 0)
    by_cases hf : s.attempted.SSH_KEY = true
    · have : (s.attempted.or extra).SSH_KEY = true := by
        simp [CredentialType.or, hf]
      rw [hf] at h
      simp only [this, if_true] at *
      omega
    · simp only [Bool.not_eq_true] at hf
      rw [hf] at h
      simp only [Bool.false_eq_true, if_false] at h
      by_cases hg : (s.attempted.or extra).SSH_KEY = true <;>
        simp only [hg, if_true, if_false, Bool.false_eq_true] <;> omega

theorem runTrace_len_inv (env : Env) (qs : List Query) :
    ∀ s, sessionLenInv s → sessionLenInv ((runTrace env s qs).2) := by
  induction qs with
  | nil => intro s h; exact h
  | cons q qs ih =>
    intro s h
    simp only [runTrace]
    exact ih _ (credCb_len_inv env s q.url q.username q.allowed h)

theorem with_authentication_len_le (env : Env) (qs : List Query) :
    ((with_authentication env qs).2).username_attempts.length ≤ 4 := by
  have h0 : sessionLenInv initState := by
    simp [sessionLenInv, initState, UsernameAttempt.rank, CredentialType.empty]
  have h := runTrace_len_inv env qs initState h0
  unfold sessionLenInv at h
  have := rank_le_three ((runTrace env initState qs).2).username_attempt
  unfold with_authentication
  by_cases hf : ((runTrace env initState qs).2).attempted.SSH_KEY = true <;>
    simp only [hf, if_true, if_false, Bool.false_eq_true] at h <;> omega

/-! ### Counting returned credentials per kind -/

theorem retCount_le_one (k : CredKind) (r : Except GitError Cred) :
    retCount k r ≤ 1 := by
  cases r with
  | ok c =>
    simp only [retCount]
    split <;> omega
  | error e => simp [retCount]

theorem retCount_sshLoop_ne (env : Env) (username : Option String)
    (cur : UsernameAttempt) (a : CredentialType) (l : List String)
    (k : CredKind) (hk : k ≠ CredKind.sshKey) :
    retCount k (sshLoop env username cur a l).ret = 0 := by
  cases hr : (sshLoop env username cur a l).ret with
  | ok c =>
    have hkind := sshLoop_ret_ok env username cur a l c hr
    simp [retCount, hkind, if_neg (Ne.symm hk)]
  | error e => simp [retCount]

theorem retCount_credentialHelper_ne (env : Env) (url : String)
    (username : Option String) (k : CredKind)
    (hk : k ≠ CredKind.userPassPlaintext) :
    retCount k (credentialHelper env url username) = 0 := by
  cases hr : credentialHelper env url username with
  | ok c =>
    have hkind := credentialHelper_ok_kind env url username c hr
    simp [retCount, hkind, if_neg (Ne.symm hk)]
  | error e => simp [retCount]

/-- One invocation consumes at least as much of a kind's budget as the
number of credentials of that kind it returns. -/
theorem credCb_budget_step (env : Env) (s : AuthState) (url : String)
    (username : Option String) (allowedArg : CredentialType) (k : CredKind) :
    retCount k (credCb env s url username allowedArg).1
      + kindBudget k ((credCb env s url username allowedArg).2)
    ≤ kindBudget k s := by
  cases hN : (allowedArg.and s.attempted.not).contains USERNAME with
  | true =>
    have sU : s.attempted.USERNAME = false := by
      have h := hN
      rw [contains_USERNAME_eq, and_not_proj_USERNAME] at h
      simp only [Bool.and_eq_true, Bool.not_eq_true'] at h
      exact h.2
    simp only [credCb, hN, if_true]
    cases k <;>
      simp [retCount, Cred.kind, kindBudget, CredentialType.or, USERNAME, sU]
  | false =>
    cases hP : (allowedArg.and s.attempted.not).contains USER_PASS_PLAINTEXT with
    | true =>
      have sP : s.attempted.USER_PASS_PLAINTEXT = false := by
        have h := hP
        rw [contains_USER_PASS_PLAINTEXT_eq,
          and_not_proj_USER_PASS_PLAINTEXT] at h
        simp only [Bool.and_eq_true, Bool.not_eq_true'] at h
        exact h.2
      cases hT : env.GH_TOKEN with
      | some token =>
        simp only [credCb, hN, hP, hT, Bool.false_eq_true, if_false, if_true]
        cases k <;>
          simp [retCount, Cred.kind, kindBudget, CredentialType.or,
            USER_PASS_PLAINTEXT, sP]
      | none =>
        simp only [credCb, hN, hP, hT, Bool.false_eq_true, if_false, if_true]
        cases hS : (allowedArg.and s.attempted.not).contains SSH_KEY with
        | true =>
          have sS : s.attempted.SSH_KEY = false := by
            have h := hS
            rw [contains_SSH_KEY_eq, and_not_proj_SSH_KEY] at h
            simp only [Bool.and_eq_true, Bool.not_eq_true'] at h
            exact h.2
          have hbase : (s.attempted.or USER_PASS_PLAINTEXT).SSH_KEY = false := by
            simp [CredentialType.or, USER_PASS_PLAINTEXT, sS]
          simp only [credCbTail, hS, if_true]
          have hflags := sshLoop_other_flags env username s.username_attempt
            (s.attempted.or USER_PASS_PLAINTEXT) s.username_attempts
          cases k with
          | sshKey =>
            have h1 := retCount_le_one CredKind.sshKey
              (sshLoop env username s.username_attempt
                (s.attempted.or USER_PASS_PLAINTEXT) s.username_attempts).ret
            have h2 := sshLoop_cursor_flag env username s.username_attempt
              (s.attempted.or USER_PASS_PLAINTEXT) s.username_attempts hbase
            simp only [kindBudget, sS, Bool.false_eq_true, if_false]
            by_cases hf : (sshLoop env username s.username_attempt
                (s.attempted.or USER_PASS_PLAINTEXT)
                s.username_attempts).attempted.SSH_KEY = true <;>
              simp only [hf, if_true, if_false, Bool.false_eq_true] at h2 ⊢ <;>
              omega
          | username =>
            have h0 := retCount_sshLoop_ne env username s.username_attempt
              (s.attempted.or USER_PASS_PLAINTEXT) s.username_attempts
              CredKind.username (by simp)
            simp only [kindBudget]
            rw [h0, hflags.1]
            simp [CredentialType.or, USER_PASS_PLAINTEXT]
          | userPassPlaintext =>
            have h0 := retCount_sshLoop_ne env username s.username_attempt
              (s.attempted.or USER_PASS_PLAINTEXT) s.username_attempts
              CredKind.userPassPlaintext (by simp)
            simp only [kindBudget]
            rw [h0, hflags.2.1]
            simp [CredentialType.or, USER_PASS_PLAINTEXT]
          | defaultCred =>
            have h0 := retCount_sshLoop_ne env username s.username_attempt
              (s.attempted.or USER_PASS_PLAINTEXT) s.username_attempts
              CredKind.defaultCred (by simp)
            simp only [kindBudget]
            rw [h0, hflags.2.2]
            simp [CredentialType.or, USER_PASS_PLAINTEXT]
        | false =>
          simp only [credCbTail, hS, hP, Bool.false_eq_true, if_false, if_true]
          cases k with
          | userPassPlaintext =>
            have h1 := retCount_le_one CredKind.userPassPlaintext
              (credentialHelper env url username)
            simp only [kindBudget]
            simp [CredentialType.or, USER_PASS_PLAINTEXT, sP]
            omega
          | username =>
            have h0 := retCount_credentialHelper_ne env url username
              CredKind.username (by simp)
            simp only [kindBudget]
            rw [h0]
            simp [CredentialType.or, USER_PASS_PLAINTEXT]
          | sshKey =>
            have h0 := retCount_credentialHelper_ne env url username
              CredKind.sshKey (by simp)
            simp only [kindBudget]
            rw [h0]
            simp [CredentialType.or, USER_PASS_PLAINTEXT]
          | defaultCred =>
            have h0 := retCount_credentialHelper_ne env url username
              CredKind.defaultCred (by simp)
            simp only [kindBudget]
            rw [h0]
            simp [CredentialType.or, USER_PASS_PLAINTEXT]
    | false =>
      simp only [credCb, hN, hP, Bool.false_eq_true, if_false]
      cases hS : (allowedArg.and s.attempted.not).contains SSH_KEY with
      | true =>
        have sS : s.attempted.SSH_KEY = false := by
          have h := hS
          rw [contains_SSH_KEY_eq, and_not_proj_SSH_KEY] at h
          simp only [Bool.and_eq_true, Bool.not_eq_true'] at h
          exact h.2
        simp only [credCbTail, hS, if_true]
        have hflags := sshLoop_other_flags env username s.username_attempt
          s.attempted s.username_attempts
        cases k with
        | sshKey =>
          have h1 := retCount_le_one CredKind.sshKey
            (sshLoop env username s.username_attempt s.attempted
              s.username_attempts).ret
          have h2 := sshLoop_cursor_flag env username s.username_attempt
            s.attempted s.username_attempts sS
          simp only [kindBudget, sS, Bool.false_eq_true, if_false]
          by_cases hf : (sshLoop env username s.username_attempt s.attempted
              s.username_attempts).attempted.SSH_KEY = true <;>
            simp only [hf, if_true, if_false, Bool.false_eq_true] at h2 ⊢ <;>
            omega
        | username =>
          have h0 := retCount_sshLoop_ne env username s.username_attempt
            s.attempted s.username_attempts CredKind.username (by simp)
          simp only [kindBudget]
          rw [h0, hflags.1]
          simp
        | userPassPlaintext =>
          have h0 := retCount_sshLoop_ne env username s.username_attempt
            s.attempted s.username_attempts CredKind.userPassPlaintext
            (by simp)
          simp only [kindBudget]
          rw [h0, hflags.2.1]
          simp
        | defaultCred =>
          have h0 := retCount_sshLoop_ne env username s.username_attempt
            s.attempted s.username_attempts CredKind.defaultCred (by simp)
          simp only [kindBudget]
          rw [h0, hflags.2.2]
          simp
      | false =>
        cases hD : (allowedArg.and s.attempted.not).contains DEFAULT with
        | true =>
          have sD : s.attempted.DEFAULT = false := by
            have h := hD
            rw [contains_DEFAULT_eq, and_not_proj_DEFAULT] at h
            simp only [Bool.and_eq_true, Bool.not_eq_true'] at h
            exact h.2
          simp only [credCbTail, hS, hP, hD, Bool.false_eq_true, if_false,
            if_true]
          cases k <;>
            simp [retCount, Cred.kind, kindBudget, CredentialType.or,
              DEFAULT, sD]
        | false =>
          simp only [credCbTail, hS, hP, hD, Bool.false_eq_true, if_false]
          cases k <;> simp [retCount, kindBudget]

theorem runTrace_budget (env : Env) (qs : List Query) :
    ∀ s k, okKindCount k (runTrace env s qs).1 ≤ kindBudget k s := by
  induction qs with
  | nil =>
    intro s k
    simp [runTrace, okKindCount]
  | cons q qs ih =>
    intro s k
    simp only [runTrace, okKindCount, List.map_cons, List.sum_cons]
    have h1 := credCb_budget_step env s q.url q.username q.allowed k
    have h2 := ih (credCbQ env s q).2 k
    simp only [okKindCount] at h2
    simp only [credCbQ] at h1 h2 ⊢
    omega

/-! ### The terminal "no authentication available" failure -/

/-- If no kind the negotiator knows is in `allowed`, the invocation
returns the final error of utils.rs line 148 and leaves the state
untouched. -/
theorem credCb_noAuth (env : Env) (s : AuthState) (url : String)
    (username : Option String) (req : CredentialType)
    (h1 : (req.and s.attempted.not).USERNAME = false)
    (h2 : (req.and s.attempted.not).USER_PASS_PLAINTEXT = false)
    (h3 : (req.and s.attempted.not).SSH_KEY = false)
    (h4 : (req.and s.attempted.not).DEFAULT = false) :
    credCb env s url username req
      = (.error (GitError.from_str "no authentication available"), s) := by
  have c1 : (req.and s.attempted.not).contains USERNAME = false := by
    rw [contains_USERNAME_eq]; exact h1
  have c2 : (req.and s.attempted.not).contains USER_PASS_PLAINTEXT = false := by
    rw [contains_USER_PASS_PLAINTEXT_eq]; exact h2
  have c3 : (req.and s.attempted.not).contains SSH_KEY = false := by
    rw [contains_SSH_KEY_eq]; exact h3
  have c4 : (req.and s.attempted.not).contains DEFAULT = false := by
    rw [contains_DEFAULT_eq]; exact h4
  simp only [credCb, credCbTail, c1, c2, c3, c4, Bool.false_eq_true, if_false]

/-- Conversely, an invocation that leaves the state exactly unchanged can
only have taken the final error branch: every credential-returning branch
records something in the session state. -/
theorem credCb_state_fixed (env : Env) (s : AuthState) (url : String)
    (username : Option String) (req : CredentialType)
    (h : (credCb env s url username req).2 = s) :
    (req.and s.attempted.not).contains USERNAME = false
    ∧ (req.and s.attempted.not).contains USER_PASS_PLAINTEXT = false
    ∧ (req.and s.attempted.not).contains SSH_KEY = false
    ∧ (req.and s.attempted.not).contains DEFAULT = false := by
  cases hN : (req.and s.attempted.not).contains USERNAME with
  | true =>
    exfalso
    have sU : s.attempted.USERNAME = false := by
      have hx := hN
      rw [contains_USERNAME_eq, and_not_proj_USERNAME] at hx
      simp only [Bool.and_eq_true, Bool.not_eq_true'] at hx
      exact hx.2
    simp only [credCb, hN, if_true] at h
    have hc := congrArg (fun t => t.attempted.USERNAME) h
    simp [CredentialType.or, USERNAME, sU] at hc
  | false =>
    cases hP : (req.and s.attempted.not).contains USER_PASS_PLAINTEXT with
    | true =>
      exfalso
      have sP : s.attempted.USER_PASS_PLAINTEXT = false := by
        have hx := hP
        rw [contains_USER_PASS_PLAINTEXT_eq,
          and_not_proj_USER_PASS_PLAINTEXT] at hx
        simp only [Bool.and_eq_true, Bool.not_eq_true'] at hx
        exact hx.2
      cases hT : env.GH_TOKEN with
      | some token =>
        simp only [credCb, hN, hP, hT, Bool.false_eq_true, if_false,
          if_true] at h
        have hc := congrArg (fun t => t.attempted.USER_PASS_PLAINTEXT) h
        simp [CredentialType.or, USER_PASS_PLAINTEXT, sP] at hc
      | none =>
        simp only [credCb, hN, hP, hT, Bool.false_eq_true, if_false,
          if_true] at h
        cases hS : (req.and s.attempted.not).contains SSH_KEY with
        | true =>
          simp only [credCbTail, hS, if_true] at h
          have hc := congrArg (fun t => t.username_attempts.length) h
          simp [sshLoop_log_append, List.length_append] at hc
        | false =>
          simp only [credCbTail, hS, hP, Bool.false_eq_true, if_false,
            if_true] at h
          have hc := congrArg (fun t => t.attempted.USER_PASS_PLAINTEXT) h
          simp [CredentialType.or, USER_PASS_PLAINTEXT, sP] at hc
    | false =>
      cases hS : (req.and s.attempted.not).contains SSH_KEY with
      | true =>
        exfalso
        simp only [credCb, credCbTail, hN, hP, hS, Bool.false_eq_true,
          if_false, if_true] at h
        have hc := congrArg (fun t => t.username_attempts.length) h
        simp [sshLoop_log_append, List.length_append] at hc
      | false =>
        cases hD : (req.and s.attempted.not).contains DEFAULT with
        | true =>
          exfalso
          have sD : s.attempted.DEFAULT = false := by
            have hx := hD
            rw [contains_DEFAULT_eq, and_not_proj_DEFAULT] at hx
            simp only [Bool.and_eq_true, Bool.not_eq_true'] at hx
            exact hx.2
          simp only [credCb, credCbTail, hN, hP, hS, hD, Bool.false_eq_true,
            if_false, if_true] at h
          have hc := congrArg (fun t => t.attempted.DEFAULT) h
          simp [CredentialType.or, DEFAULT, sD] at hc
        | false =>
          exact ⟨rfl, rfl, rfl, rfl⟩

/-! ### Token short-circuit for plaintext credentials -/

theorem credCb_token_userpass (env : Env) (s : AuthState) (url : String)
    (username : Option String) (req : CredentialType) (T : String)
    (hT : env.GH_TOKEN = some T) (c : Cred)
    (h : (credCb env s url username req).1 = .ok c)
    (hk : c.kind = CredKind.userPassPlaintext) :
    c = Cred.userpassPlaintext T "" := by
  cases hN : (req.and s.attempted.not).contains USERNAME with
  | true =>
    simp only [credCb, hN, if_true] at h
    cases h
    simp [Cred.kind] at hk
  | false =>
    cases hP : (req.and s.attempted.not).contains USER_PASS_PLAINTEXT with
    | true =>
      simp only [credCb, hN, hP, hT, Bool.false_eq_true, if_false,
        if_true] at h
      cases h
      rfl
    | false =>
      simp only [credCb, hN, hP, Bool.false_eq_true, if_false] at h
      rcases credCbTail_ok_kind env s url username _ c h with
        ⟨ha, hk2⟩ | ⟨ha, hk2⟩ | ⟨ha, hk2⟩
      · rw [hk2] at hk
        cases hk
      · rw [contains_USER_PASS_PLAINTEXT_eq] at hP
        rw [hP] at ha
        cases ha
      · rw [hk2] at hk
        cases hk

theorem runTrace_token_userpass (env : Env) (T : String)
    (hT : env.GH_TOKEN = some T) :
    ∀ (qs : List Query) (s : AuthState) (c : Cred),
      Except.ok c ∈ (runTrace env s qs).1 →
      c.kind = CredKind.userPassPlaintext →
      c = Cred.userpassPlaintext T "" := by
  intro qs
  induction qs with
  | nil =>
    intro s c hmem
    simp [runTrace] at hmem
  | cons q qs ih =>
    intro s c hmem hk
    simp only [runTrace, List.mem_cons] at hmem
    rcases hmem with hmem | hmem
    · exact credCb_token_userpass env s q.url q.username q.allowed T hT c
        hmem.symm hk
    · exact ih _ c hmem hk

/-! ### Claim theorems -/

/-- C1 witness: the first invocation of a fresh session with `USERNAME`
allowed returns the bare-username credential, whose kind was not in the
(empty) attempted set. -/
theorem c1_witness :
    (credCb envBare initState "https://example.invalid" none USERNAME).1
        = .ok (.username "git")
    ∧ initState.attempted.containsKind (Cred.username "git").kind = false :=
  ⟨rfl,
   credCb_no_attempted_kind envBare initState "https://example.invalid" none
     USERNAME (Cred.username "git") rfl⟩

/-- C2 (counterexample to distinctness): the error returned when every
declared kind has already been attempted is the very same value as the
error returned when the remote declares only a kind the negotiator does
not know — the code does not distinguish `AuthExhausted` from
`AuthUnavailable`. -/
theorem c2_exhausted_error_not_distinct :
    (credCb envBare { initState with attempted := USERNAME }
        "https://example.invalid" none USERNAME).1
      = .error (GitError.from_str "no authentication available")
    ∧ (credCb envBare initState "https://example.invalid" none SSH_CUSTOM).1
      = .error (GitError.from_str "no authentication available") :=
  ⟨rfl, rfl⟩

/-- C2 (amended): when `allowed = requested − attempted` is empty, the
invocation fails with the terminal error "no authentication available"
and leaves the session state unchanged; this is the same error value the
negotiator uses when no declared kind is known, so the exhausted and
unavailable failures are not distinct values. -/
theorem c2_exhausted_returns_noauth_error (env : Env) (s : AuthState)
    (url : String) (username : Option String) (req : CredentialType)
    (h : req.and s.attempted.not = CredentialType.empty) :
    credCb env s url username req
      = (.error (GitError.from_str "no authentication available"), s) := by
  apply credCb_noAuth <;> rw [h] <;> rfl

/-- C2 witness: a state with `USERNAME` attempted and the request
`{USERNAME}` has empty allowed set, and the invocation returns the
terminal error with the state unchanged. -/
theorem c2_witness :
    USERNAME.and ({ initState with attempted := USERNAME }.attempted.not)
        = CredentialType.empty
    ∧ credCb envBare { initState with attempted := USERNAME }
        "https://example.invalid" none USERNAME
      = (.error (GitError.from_str "no authentication available"),
         { initState with attempted := USERNAME }) :=
  ⟨by decide,
   c2_exhausted_returns_noauth_error envBare
     { initState with attempted := USERNAME } "https://example.invalid" none
     USERNAME (by decide)⟩

/-- C3: the SSH username sub-negotiation visits the sources in the fixed
priority order (remote-supplied, helper-configured, OS-local, literal
"git"), skipping sources that yield nothing without consuming an attempt
slot; the chosen name is appended to the attempt log regardless of the
agent lookup's outcome; `SSH_KEY` is marked attempted exactly when the
final `Git` source is reached; the cursor never moves backwards; and the
attempt log of a whole session never exceeds 4 entries. -/
theorem c3_ssh_username_priority_order :
    (∀ (env : Env) (username : Option String) (cur : UsernameAttempt)
        (attempted : CredentialType) (log : List String),
      sshLoop env username cur attempted log =
        { ret := sshKeyFromAgent env (firstYield env username cur).2
          username_attempt := (firstYield env username cur).1.next
          attempted :=
            if (firstYield env username cur).1 = UsernameAttempt.Git
            then attempted.or SSH_KEY else attempted
          username_attempts := log ++ [(firstYield env username cur).2] })
    ∧ (∀ (env : Env) (s : AuthState) (q : Query),
        s.username_attempt.rank
          ≤ ((credCbQ env s q).2).username_attempt.rank)
    ∧ (∀ (env : Env) (qs : List Query),
        ((with_authentication env qs).2).username_attempts.length ≤ 4) :=
  ⟨sshLoop_closed_form,
   fun env s q => credCb_rank_monotone env s q.url q.username q.allowed,
   with_authentication_len_le⟩

/-- C4 (counterexample): with no token available and
`{UserPassPlaintext, SshKey}` allowed, the invocation marks
`USER_PASS_PLAINTEXT` attempted (the claim says the flag is left
unchanged), and a later invocation allowing only `UserPassPlaintext`
fails as exhausted instead of performing the credential-helper lookup
(even though the helper would succeed in this environment). -/
theorem c4_flag_set_on_fallthrough :
    ((credCb envHelperOk initState "https://example.invalid" (some "bob")
        (USER_PASS_PLAINTEXT.or SSH_KEY)).2).attempted.USER_PASS_PLAINTEXT
      = true
    ∧ (credCb envHelperOk
        ((credCb envHelperOk initState "https://example.invalid" (some "bob")
          (USER_PASS_PLAINTEXT.or SSH_KEY)).2)
        "https://example.invalid" (some "bob") USER_PASS_PLAINTEXT).1
      = .error (GitError.from_str "no authentication available") :=
  ⟨rfl, rfl⟩

/-- C4 (amended): when `allowed` contains `UserPassPlaintext` but no
token is available (and neither `Username` nor `SshKey` applies), the
token block marks `UserPassPlaintext` attempted and falls through; the
step-5 credential-helper lookup still runs in the *same* invocation,
because the allowed set is computed once per invocation, and the flag
ends set, so a later invocation will not offer the kind again. -/
theorem c4_fallthrough_same_invocation_helper (env : Env) (s : AuthState)
    (url : String) (username : Option String) (req : CredentialType)
    (hT : env.GH_TOKEN = none)
    (hN : (req.and s.attempted.not).contains USERNAME = false)
    (hP : (req.and s.attempted.not).contains USER_PASS_PLAINTEXT = true)
    (hS : (req.and s.attempted.not).contains SSH_KEY = false) :
    credCb env s url username req
      = (credentialHelper env url username,
         { s with
            attempted :=
              (s.attempted.or USER_PASS_PLAINTEXT).or USER_PASS_PLAINTEXT
            failed_cred_helper :=
              match credentialHelper env url username with
              | .ok _ => false
              | .error _ => true })
    ∧ ((s.attempted.or USER_PASS_PLAINTEXT).or
        USER_PASS_PLAINTEXT).USER_PASS_PLAINTEXT = true := by
  constructor
  · simp only [credCb, credCbTail, hN, hP, hT, hS, Bool.false_eq_true,
      if_false, if_true]
  · simp [CredentialType.or, USER_PASS_PLAINTEXT]

/-- C4 witness: a fresh state with only `UserPassPlaintext` allowed and no
token runs the helper lookup in the same invocation and sets the flag. -/
theorem c4_witness :
    credCb envHelperOk initState "https://example.invalid" none
        USER_PASS_PLAINTEXT
      = (credentialHelper envHelperOk "https://example.invalid" none,
         { initState with
            attempted := (initState.attempted.or
              USER_PASS_PLAINTEXT).or USER_PASS_PLAINTEXT
            failed_cred_helper :=
              match credentialHelper envHelperOk "https://example.invalid"
                none with
              | .ok _ => false
              | .error _ => true })
    ∧ ((initState.attempted.or USER_PASS_PLAINTEXT).or
        USER_PASS_PLAINTEXT).USER_PASS_PLAINTEXT = true :=
  c4_fallthrough_same_invocation_helper envHelperOk initState
    "https://example.invalid" none USER_PASS_PLAINTEXT rfl (by decide)
    (by decide) (by decide)

/-- C5: across one session, each kind is the basis for a returned
credential a bounded number of times: at most 4 for `SshKey` and at most
once each for `Username`, `UserPassPlaintext` and `Default`. -/
theorem c5_bounded_returns_per_kind (env : Env) (qs : List Query) :
    okKindCount CredKind.sshKey (with_authentication env qs).1 ≤ 4
    ∧ okKindCount CredKind.username (with_authentication env qs).1 ≤ 1
    ∧ okKindCount CredKind.userPassPlaintext
        (with_authentication env qs).1 ≤ 1
    ∧ okKindCount CredKind.defaultCred (with_authentication env qs).1 ≤ 1 := by
  refine ⟨?_, ?_, ?_, ?_⟩
  · simpa [kindBudget, initState, UsernameAttempt.rank,
      CredentialType.empty, with_authentication] using
      runTrace_budget env qs initState CredKind.sshKey
  · simpa [kindBudget, initState, CredentialType.empty,
      with_authentication] using
      runTrace_budget env qs initState CredKind.username
  · simpa [kindBudget, initState, CredentialType.empty,
      with_authentication] using
      runTrace_budget env qs initState CredKind.userPassPlaintext
  · simpa [kindBudget, initState, CredentialType.empty,
      with_authentication] using
      runTrace_budget env qs initState CredKind.defaultCred

/-- C6: whenever the token environment variable is set to `T`, every
credential of kind `UserPassPlaintext` returned during the session (in
particular the first) is the plaintext pair `(T, "")` built from the
token, never a credential-helper result. -/
theorem c6_token_first_userpass (env : Env) (T : String)
    (hT : env.GH_TOKEN = some T) (qs : List Query) (c : Cred)
    (hmem : Except.ok c ∈ (with_authentication env qs).1)
    (hk : c.kind = CredKind.userPassPlaintext) :
    c = Cred.userpassPlaintext T "" :=
  runTrace_token_userpass env T hT qs initState c hmem hk

/-- C6 witness: with `GH_TOKEN = "T"` and a transport allowing only
`UserPassPlaintext`, the session returns exactly the token credential. -/
theorem c6_witness :
    (with_authentication envToken
        [⟨"https://example.invalid", none, USER_PASS_PLAINTEXT⟩]).1
      = [.ok (.userpassPlaintext "T" "")]
    ∧ Cred.userpassPlaintext "T" "" = Cred.userpassPlaintext "T" "" :=
  ⟨rfl,
   c6_token_first_userpass envToken "T" rfl
     [⟨"https://example.invalid", none, USER_PASS_PLAINTEXT⟩]
     (Cred.userpassPlaintext "T" "")
     (List.Mem.head _ :
       Except.ok (Cred.userpassPlaintext "T" "")
         ∈ [Except.ok (Cred.userpassPlaintext "T" "")]) rfl⟩

/-- C7: when the declared-allowed set contains no kind the negotiator
knows (and none of its kinds has been attempted), the invocation fails
immediately with "no authentication available" and the session state is
returned entirely unchanged. -/
theorem c7_unknown_kinds_no_mutation (env : Env) (s : AuthState)
    (url : String) (username : Option String) (req : CredentialType)
    (hU : req.USERNAME = false) (hS : req.SSH_KEY = false)
    (hP : req.USER_PASS_PLAINTEXT = false) (hD : req.DEFAULT = false)
    (_hAtt : req.and s.attempted = CredentialType.empty) :
    credCb env s url username req
      = (.error (GitError.from_str "no authentication available"), s) := by
  apply credCb_noAuth
  · rw [and_not_proj_USERNAME, hU]
    rfl
  · rw [and_not_proj_USER_PASS_PLAINTEXT, hP]
    rfl
  · rw [and_not_proj_SSH_KEY, hS]
    rfl
  · rw [and_not_proj_DEFAULT, hD]
    rfl

/-- C7 witness: a request declaring only `SSH_CUSTOM` on a fresh session
fails immediately with the state unchanged. -/
theorem c7_witness :
    credCb envBare initState "https://example.invalid" none SSH_CUSTOM
      = (.error (GitError.from_str "no authentication available"),
         initState) :=
  c7_unknown_kinds_no_mutation envBare initState "https://example.invalid"
    none SSH_CUSTOM rfl rfl rfl rfl (by decide)

/-- C8: attempted kinds are never removed (the attempted set is monotone
across invocations), and once an invocation has returned the terminal
failure for a requested-kind set, every later invocation of the session
with the same requested-kind set returns the same terminal failure. -/
theorem c8_terminal_failure_persists :
    (∀ (env : Env) (s : AuthState) (q : Query) (k : CredKind),
        s.attempted.containsKind k = true →
        ((credCbQ env s q).2).attempted.containsKind k = true)
    ∧ (∀ (env : Env) (s : AuthState) (url : String)
        (username : Option String) (req : CredentialType) (qs : List Query)
        (url2 : String) (username2 : Option String),
        credCb env s url username req
          = (.error (GitError.from_str "no authentication available"), s) →
        credCb env (runTrace env s qs).2 url2 username2 req
          = (.error (GitError.from_str "no authentication available"),
             (runTrace env s qs).2)) := by
  constructor
  · intro env s q k h
    exact credCb_attempted_monotone env s q.url q.username q.allowed k h
  · intro env s url username req qs url2 username2 hterm
    obtain ⟨f1, f2, f3, f4⟩ := credCb_state_fixed env s url username req
      (by rw [hterm])
    rw [contains_USERNAME_eq, and_not_proj_USERNAME] at f1
    rw [contains_USER_PASS_PLAINTEXT_eq,
      and_not_proj_USER_PASS_PLAINTEXT] at f2
    rw [contains_SSH_KEY_eq, and_not_proj_SSH_KEY] at f3
    rw [contains_DEFAULT_eq, and_not_proj_DEFAULT] at f4
    apply credCb_noAuth
    · rw [and_not_proj_USERNAME]
      cases hr : req.USERNAME
      · rfl
      · rw [hr, Bool.true_and, Bool.not_eq_false'] at f1
        have hm := runTrace_attempted_monotone env qs s CredKind.username f1
        simp only [CredentialType.containsKind] at hm
        simp [hm]
    · rw [and_not_proj_USER_PASS_PLAINTEXT]
      cases hr : req.USER_PASS_PLAINTEXT
      · rfl
      · rw [hr, Bool.true_and, Bool.not_eq_false'] at f2
        have hm := runTrace_attempted_monotone env qs s
          CredKind.userPassPlaintext f2
        simp only [CredentialType.containsKind] at hm
        simp [hm]
    · rw [and_not_proj_SSH_KEY]
      cases hr : req.SSH_KEY
      · rfl
      · rw [hr, Bool.true_and, Bool.not_eq_false'] at f3
        have hm := runTrace_attempted_monotone env qs s CredKind.sshKey f3
        simp only [CredentialType.containsKind] at hm
        simp [hm]
    · rw [and_not_proj_DEFAULT]
      cases hr : req.DEFAULT
      · rfl
      · rw [hr, Bool.true_and, Bool.not_eq_false'] at f4
        have hm := runTrace_attempted_monotone env qs s
          CredKind.defaultCred f4
        simp only [CredentialType.containsKind] at hm
        simp [hm]

/-- C8 witness: after a terminal failure for `{USERNAME}` with `USERNAME`
already attempted, the same request keeps failing identically even after
an intervening invocation that attempts `DEFAULT`. -/
theorem c8_witness :
    credCb envBare
        (runTrace envBare { initState with attempted := USERNAME }
          [⟨"https://example.invalid", none, DEFAULT⟩]).2
        "https://example.invalid" none USERNAME
      = (.error (GitError.from_str "no authentication available"),
         (runTrace envBare { initState with attempted := USERNAME }
           [⟨"https://example.invalid", none, DEFAULT⟩]).2) :=
  c8_terminal_failure_persists.2 envBare
    { initState with attempted := USERNAME } "https://example.invalid" none
    USERNAME [⟨"https://example.invalid", none, DEFAULT⟩]
    "https://example.invalid" none rfl

/-- C9: `fetch` propagates configuration and remote-opening failures
verbatim, and otherwise hands the transport a request for exactly the
given URL and single refspec with all tags downloaded, runs the
negotiation from fresh session state, and returns the transport's
outcome. -/
theorem c9_fetch_structure :
    (∀ (env : Env) (tr : Transport) (repo : Repository)
        (url refspec : String) (e : GitError),
        repo.config = .error e → fetch env tr repo url refspec = .error e)
    ∧ (∀ (env : Env) (tr : Transport) (repo : Repository)
        (url refspec : String) (e : GitError),
        repo.config = .ok () → repo.remote_anonymous url = .error e →
        fetch env tr repo url refspec = .error e)
    ∧ (∀ (env : Env) (tr : Transport) (repo : Repository)
        (url refspec : String),
        repo.config = .ok () → repo.remote_anonymous url = .ok () →
        fetch env tr repo url refspec
          = tr.outcome
              { url := url, refspecs := [refspec],
                download_tags := AutotagOption.All }
              (runTrace env initState (tr.queries
                { url := url, refspecs := [refspec],
                  download_tags := AutotagOption.All })).1) := by
  refine ⟨?_, ?_, ?_⟩
  · intro env tr repo url refspec e hc
    simp [fetch, hc]
  · intro env tr repo url refspec e hc hr
    simp [fetch, hc, hr]
  · intro env tr repo url refspec hc hr
    simp [fetch, hc, hr, with_authentication]

/-- C9 witness: with a succeeding repository handle and a transport that
asks no queries, `fetch` returns the transport's outcome. -/
theorem c9_witness :
    fetch envBare transportNull repoOk "https://example.invalid"
        "refs/heads/a:refs/heads/a"
      = transportNull.outcome
          { url := "https://example.invalid",
            refspecs := ["refs/heads/a:refs/heads/a"],
            download_tags := AutotagOption.All }
          (runTrace envBare initState (transportNull.queries
            { url := "https://example.invalid",
              refspecs := ["refs/heads/a:refs/heads/a"],
              download_tags := AutotagOption.All })).1 :=
  c9_fetch_structure.2.2 envBare transportNull repoOk
    "https://example.invalid" "refs/heads/a:refs/heads/a" rfl rfl

/-- C10: when the `USERNAME` sub-negotiation is selected, the invocation
returns the bare-username credential and the only state change is adding
`USERNAME` to the attempted set: the cursor, the attempt log and the
helper-failure flag are untouched. -/
theorem c10_username_frame (env : Env) (s : AuthState) (url : String)
    (username : Option String) (req : CredentialType)
    (h : (req.and s.attempted.not).contains USERNAME = true) :
    credCb env s url username req
      = (.ok (.username (username.getD "git")),
         { s with attempted := s.attempted.or USERNAME })
    ∧ ((credCb env s url username req).2).username_attempt
        = s.username_attempt
    ∧ ((credCb env s url username req).2).username_attempts
        = s.username_attempts
    ∧ ((credCb env s url username req).2).failed_cred_helper
        = s.failed_cred_helper := by
  have h1 : credCb env s url username req
      = (.ok (.username (username.getD "git")),
         { s with attempted := s.attempted.or USERNAME }) := by
    simp only [credCb, h, if_true]
  exact ⟨h1, by rw [h1], by rw [h1], by rw [h1]⟩

/-- C10 witness: a fresh session asked for `USERNAME` with a
remote-supplied name returns it and changes only the attempted set. -/
theorem c10_witness :
    credCb envBare initState "https://example.invalid" (some "alice")
        USERNAME
      = (.ok (.username "alice"),
         { initState with attempted := initState.attempted.or USERNAME })
    ∧ ((credCb envBare initState "https://example.invalid" (some "alice")
        USERNAME).2).username_attempt = initState.username_attempt
    ∧ ((credCb envBare initState "https://example.invalid" (some "alice")
        USERNAME).2).username_attempts = initState.username_attempts
    ∧ ((credCb envBare initState "https://example.invalid" (some "alice")
        USERNAME).2).failed_cred_helper = initState.failed_cred_helper :=
  c10_username_frame envBare initState "https://example.invalid"
    (some "alice") USERNAME (by decide)

end Git2Commit
